import Mathlib

/-
  Shallow embedding of the hog4midictrl translation core
  (src/mapping.rs and the pure message-handling logic of src/mapper.rs).

  Modelling choices:
  * Rust `String` values are modelled as `List Char`.
  * `u8` values are modelled as `Nat`; `% 256` is applied exactly where the
    Rust arithmetic could wrap.
  * OSC `Float` arguments (f32) are modelled as `ℚ`; the only operation the
    code performs on them is the Rust `as u8` cast (truncation toward zero,
    saturating at 0 and 255), modelled by `f32_to_u8`.
  * A Rust panic (indexing `msg.args[0]` on an empty vector) is modelled by
    returning `none`; a normal return is `some` of the emitted MIDI messages
    together with the `println!` reports of the call.
-/

namespace Hog4Midictrl

abbrev Str := List Char

/-- ButtonMapping from src/mapping.rs lines 1-7. -/
structure ButtonMapping where
  name : Str
  note : Nat
  vel_on : Nat
  vel_off : Nat
deriving DecidableEq

/-- ControlMapping from src/mapping.rs lines 9-13. -/
structure ControlMapping where
  name : Str
  id : Nat
deriving DecidableEq

/-- Mapping registry from src/mapping.rs lines 15-18. -/
structure Mapping where
  control_mappings : List ControlMapping
  button_mappings : List ButtonMapping

/-- `Mapping::button_from_name` (mapping.rs lines 27-29): first entry whose name matches. -/
def Mapping.button_from_name (m : Mapping) (name : Str) : Option ButtonMapping :=
  m.button_mappings.find? (fun x => x.name == name)

/-- `Mapping::controller_from_id` (mapping.rs lines 31-33). -/
def Mapping.controller_from_id (m : Mapping) (id : Nat) : Option ControlMapping :=
  m.control_mappings.find? (fun x => x.id == id)

/-- `Mapping::button_from_note` (mapping.rs lines 35-37). -/
def Mapping.button_from_note (m : Mapping) (note : Nat) : Option ButtonMapping :=
  m.button_mappings.find? (fun x => x.note == note)

/-- The 8x8 button matrix literal of `Mapping::apc_mini` (mapping.rs lines 47-56),
written top-row-first as in the source. -/
def button_matrix : List (List Str) :=
  [ ["nextpage".toList, [], [], [], "ewheelbutton/1".toList, "ewheelbutton/2".toList, "ewheelbutton/3".toList, "ewheelbutton/4".toList],
    ["grandmaster".toList, [], [], [], "intensity".toList, "position".toList, "colour".toList, "beam".toList],
    ["mainchoose".toList, "live".toList, "scene".toList, "cue".toList, "effect".toList, "time".toList, "group".toList, "fixture".toList],
    ["assert".toList, "macro".toList, "list".toList, "page".toList, "backspace".toList, "slash".toList, "minus".toList, "plus".toList],
    ["release".toList, "delete".toList, "move".toList, "copy".toList, "seven".toList, "eight".toList, "nine".toList, "thru".toList],
    ["mainback".toList, "update".toList, "merge".toList, "record".toList, "four".toList, "five".toList, "six".toList, "full".toList],
    ["mainhalt".toList, "setup".toList, "goto".toList, "set".toList, "one".toList, "two".toList, "three".toList, "at".toList],
    ["maingo".toList, "pig".toList, "fan".toList, "open".toList, "zero".toList, "dot".toList, "enter".toList, "enter".toList] ]

/-- The `vel_off` closure of `Mapping::apc_mini` (mapping.rs lines 58-76);
x and y count from the bottom left. -/
def vel_off (x y : Nat) : Nat :=
  if 1 ≤ x ∧ x < 4 ∧ (y < 2 ∨ 4 ≤ y) then 5
  else if 4 ≤ x ∧ (y < 5 ∨ y = 7) then 5
  else 3

/-- Name of the grid cell at column x, bottom-left row y: the source indexes
`button_matrix[7 - y][x]` (mapping.rs line 79). -/
def matrix_name (x y : Nat) : Str :=
  (button_matrix.getD (7 - y) []).getD x []

/-- The grid loop of `Mapping::apc_mini` (mapping.rs lines 77-90): outer loop
over x, inner over y, skipping empty names. -/
def grid_buttons : List ButtonMapping :=
  (List.range 8).flatMap (fun x =>
    (List.range 8).filterMap (fun y =>
      let name := matrix_name x y
      if name = [] then none
      else some ⟨name, 8 * y + x, 127, vel_off x y⟩))

/-- The right-column literal of `Mapping::apc_mini` (mapping.rs line 91). -/
def right_column : List Str :=
  ["highlight".toList, "blind".toList, "clear".toList, "back".toList,
   "all".toList, "next".toList, [], []]

/-- The right-column loop of `Mapping::apc_mini` (mapping.rs lines 92-103). -/
def right_buttons : List ButtonMapping :=
  (List.range 8).filterMap (fun y =>
    let name := right_column.getD y []
    if name = [] then none
    else some ⟨name, 82 + y, 127, 0⟩)

/-- The fader-choose loop of `Mapping::apc_mini` (mapping.rs lines 105-120),
button part: i runs 1..=9, note 98 for i = 9, else i + 64 - 1. -/
def choose_buttons : List ButtonMapping :=
  (List.range 9).map (fun k =>
    let i := k + 1
    let note := if i = 9 then 98 else i + 64 - 1
    ⟨("choose/" ++ toString i).toList, note, 127, 0⟩)

/-- The fader-choose loop of `Mapping::apc_mini` (mapping.rs lines 105-120),
controller part: id 48 + i - 1. -/
def fader_controls : List ControlMapping :=
  (List.range 9).map (fun k =>
    let i := k + 1
    ⟨("fader/" ++ toString i).toList, 48 + i - 1⟩)

/-- `Mapping::apc_mini` (mapping.rs lines 41-123): the three button groups are
pushed in this order; the control mappings are the nine faders. -/
def Mapping.apc_mini : Mapping :=
  ⟨fader_controls, grid_buttons ++ right_buttons ++ choose_buttons⟩

/-- OSC argument values as used by the router (mapper.rs): only the `Float`
variant is inspected; every other `OscType` argument falls into the catch-all
report arm, modelled by `other`. -/
inductive OscType where
  | float (v : ℚ)
  | other
deriving DecidableEq

/-- `rosc::OscMessage` restricted to the fields the router reads. -/
structure OscMessage where
  addr : Str
  args : List OscType
deriving DecidableEq

/-- `midly::MidiMessage` restricted to the variants the router handles
(mapper.rs lines 136-163); `other` stands for the `_ => {}` arm. -/
inductive MidiMessage where
  | noteOn (key : Nat) (vel : Nat)
  | noteOff (key : Nat) (vel : Nat)
  | controller (controller : Nat) (value : Nat)
  | other
deriving DecidableEq

/-- The three distinct `println!` reports of `handle_osc_message`
(mapper.rs lines 118, 120, 126). -/
inductive Report where
  | unexpectedValue (name : Str) (value : Nat)
  | unexpectedType (name : Str)
  | unknownKey (name : Str)
deriving DecidableEq

/-- Observable outcome of one `handle_osc_message` call: the MIDI messages
sent via `send_midi_message` and the reports printed. -/
structure OscResult where
  midi : List MidiMessage
  reports : List Report
deriving DecidableEq

/-- The Rust `f32 as u8` cast applied at mapper.rs line 109: truncation toward
zero, saturating at 0 below and 255 above. (A `ℚ` model of the finite f32
values; the cast does no rounding beyond truncation.) -/
def f32_to_u8 (v : ℚ) : Nat :=
  if v < 0 then 0 else min 255 (v.num.toNat / v.den)

/-- Rust `str::starts_with` / the prefix test of `str::strip_prefix` on the
`List Char` string model. -/
def starts_with (p s : Str) : Bool :=
  p.isPrefixOf s

/-- Rust `str::strip_prefix` on the `List Char` string model
(mapper.rs line 103). -/
def strip_pre (p s : Str) : Option Str :=
  if starts_with p s then some (s.drop p.length) else none

/-- Recursion core of Rust `str::replace` on the `List Char` string model:
replace every non-overlapping occurrence of the pattern `p :: ps`, scanning
left to right. The fuel argument only makes the recursion structural; one
unit is consumed per character of the scanned string, so any fuel of at least
the string's length computes the replacement (`replaceAllF_fuel`). -/
def replaceAllF (p : Char) (ps rep : Str) : Str → Nat → Str
  | [], _ => []
  | c :: rest, 0 => c :: rest
  | c :: rest, fuel + 1 =>
    if (p :: ps).isPrefixOf (c :: rest) then
      rep ++ replaceAllF p ps rep (rest.drop ps.length) fuel
    else
      c :: replaceAllF p ps rep rest fuel

/-- Rust `str::replace` on the `List Char` string model (the pattern is passed
with an explicit head so it is never empty). -/
def replaceAll (p : Char) (ps rep s : Str) : Str :=
  replaceAllF p ps rep s s.length

/-- Fuel irrelevance for `replaceAllF`: any fuel of at least the string's
length yields the same result, so `replaceAll` computes the fuel-free
left-to-right replacement. -/
theorem replaceAllF_fuel (p : Char) (ps rep : Str) :
    ∀ (f g : Nat) (s : Str), s.length ≤ f → s.length ≤ g →
      replaceAllF p ps rep s f = replaceAllF p ps rep s g := by
  intro f
  induction f with
  | zero =>
    intro g s hf _
    have hs : s = [] := List.eq_nil_of_length_eq_zero (Nat.le_zero.mp hf)
    subst hs
    cases g <;> rfl
  | succ f ih =>
    intro g s hf hg
    match s, g with
    | [], _ => simp [replaceAllF]
    | c :: rest, g + 1 =>
      simp only [List.length_cons, Nat.succ_le_succ_iff] at hf hg
      simp only [replaceAllF]
      by_cases hpre : (p :: ps).isPrefixOf (c :: rest) = true
      · rw [if_pos hpre, if_pos hpre]
        have hlen : (rest.drop ps.length).length ≤ rest.length := by
          simp [List.length_drop]
        rw [ih g _ (Nat.le_trans hlen hf) (Nat.le_trans hlen hg)]
      · rw [if_neg hpre, if_neg hpre]
        rw [ih g rest hf hg]

/-- Rust `str::strip_suffix("/100").unwrap_or(&name)` on the `List Char`
string model (mapper.rs line 106). -/
def strip_100 (s : Str) : Str :=
  if "/100".toList.isSuffixOf s then s.take (s.length - 4) else s

/-- The name normalization of `handle_osc_message` (mapper.rs lines 104-106):
rewrite every occurrence of "effects" to "effect", then strip a trailing
"/100" if present. -/
def led_name (suffix : Str) : Str :=
  strip_100 (replaceAll 'e' "ffects".toList "effect".toList suffix)

/-- The LED-status address prefix of mapper.rs line 103. -/
def led_pre : Str := "/hog/status/led/".toList

/-- The body of the LED branch of `handle_osc_message` (mapper.rs lines
107-127), after the name has been normalized. `none` models the Rust panic of
`&msg.args[0]` on an empty argument vector; the match on `f32_to_u8 v` is the
source's `match *val as u8` with arms 0, 1 and catch-all. -/
def handle_led (m : Mapping) (name : Str) (args : List OscType) : Option OscResult :=
  match m.button_from_name name with
  | some btn =>
    match args with
    | [] => none
    | arg :: _ =>
      match arg with
      | .float v =>
        let u := f32_to_u8 v
        if u = 0 then some ⟨[.noteOn btn.note btn.vel_off], []⟩
        else if u = 1 then some ⟨[.noteOn btn.note btn.vel_on], []⟩
        else some ⟨[], [.unexpectedValue name u]⟩
      | .other => some ⟨[], [.unexpectedType name]⟩
  | none =>
    if starts_with "flash".toList name then some ⟨[], []⟩
    else some ⟨[], [.unknownKey name]⟩

/-- `Mapper::handle_osc_message` (mapper.rs lines 102-133). Addresses outside
the LED prefix — the time-status prefix and everything else — produce no
output and no report. -/
def handle_osc_message (m : Mapping) (msg : OscMessage) : Option OscResult :=
  match strip_pre led_pre msg.addr with
  | some suffix => handle_led m (led_name suffix) msg.args
  | none =>
    if starts_with "/hog/status/time".toList msg.addr then some ⟨[], []⟩
    else some ⟨[], []⟩

/-- The outgoing hardware address prefix of mapper.rs lines 140, 148, 156. -/
def hardware_pre : Str := "/hog/hardware/".toList

/-- `Mapper::handle_midi_message` (mapper.rs lines 135-165): the returned list
is what `send_osc_message` emits; this path prints nothing. The controller
remap is the source's u8 arithmetic `value * 2 + value / 64`, with `% 256`
marking where the u8 multiplication and addition could wrap. -/
def handle_midi_message (m : Mapping) (message : MidiMessage) : List OscMessage :=
  match message with
  | .noteOn key _ =>
    match m.button_from_note key with
    | some btn => [⟨hardware_pre ++ btn.name, [.float 1]⟩]
    | none => []
  | .noteOff key _ =>
    match m.button_from_note key with
    | some btn => [⟨hardware_pre ++ btn.name, [.float 0]⟩]
    | none => []
  | .controller controller value =>
    match m.controller_from_id controller with
    | some c => [⟨hardware_pre ++ c.name, [.float (((value * 2) % 256 + value / 64) % 256 : Nat)]⟩]
    | none => []
  | .other => []

/-! Helper lemmas shared by several claim theorems. -/

/-- A list is a `isPrefixOf`-prefix of itself followed by anything. -/
theorem isPrefixOf_append_self (p s : Str) : p.isPrefixOf (p ++ s) = true := by
  induction p with
  | nil => simp [List.isPrefixOf]
  | cons a as ih => simp [List.isPrefixOf, ih]

/-- `strip_pre` recovers exactly the suffix after the given leading part. -/
theorem strip_pre_append (p s : Str) : strip_pre p (p ++ s) = some s := by
  simp [strip_pre, starts_with, isPrefixOf_append_self, List.drop_left]

/-- In a list whose `note` fields are pairwise distinct, `find?` on a member's
note returns exactly that member. -/
theorem find_note_eq_of_mem (l : List ButtonMapping) (b : ButtonMapping)
    (hp : l.Pairwise (fun a c => a.note ≠ c.note)) (hb : b ∈ l) :
    l.find? (fun x => x.note == b.note) = some b := by
  induction l with
  | nil => cases hb
  | cons h t ih =>
    rcases List.mem_cons.mp hb with rfl | hbt
    · simp [List.find?]
    · have hne : h.note ≠ b.note := (List.pairwise_cons.mp hp).1 b hbt
      have hfalse : (h.note == b.note) = false := by
        simp [hne]
      simp only [List.find?, hfalse]
      exact ih (List.pairwise_cons.mp hp).2 hbt

/-- The `note` fields of the apc_mini registry are pairwise distinct. -/
theorem apc_mini_notes_distinct :
    Mapping.apc_mini.button_mappings.Pairwise (fun a c => a.note ≠ c.note) := by
  decide

/-! Claim theorems. -/

/-- C1, counterexample: the claim "every pair of distinct entries in the
button collection have different name fields" is false — the pads at notes 6
and 7 are both named "enter". -/
theorem C1_counterexample :
    Mapping.apc_mini.button_from_note 6 = some ⟨"enter".toList, 6, 127, 5⟩ ∧
    Mapping.apc_mini.button_from_note 7 = some ⟨"enter".toList, 7, 127, 5⟩ ∧
    ¬ Mapping.apc_mini.button_mappings.Pairwise (fun a b => a.name ≠ b.name) := by
  decide

/-- C1, amended: in the registry built by `Mapping.apc_mini`, every pair of
distinct entries in the button collection have different name fields, except
for the single pair of pads at notes 6 and 7, which are both named "enter". -/
theorem C1_amended_names_almost_unique :
    Mapping.apc_mini.button_mappings.Pairwise
      (fun a b => a.name ≠ b.name ∨
        (a.name = "enter".toList ∧ a.note = 6 ∧ b.note = 7)) := by
  decide

/-- C3: the claim says a LED-status message whose normalized name matches a
button but whose argument list is empty is reported and handled without
aborting; the code instead indexes `msg.args[0]` and panics (modelled as
`none`), killing the router loop. -/
theorem C3_empty_args_panics :
    handle_osc_message Mapping.apc_mini ⟨"/hog/status/led/maingo".toList, []⟩ = none ∧
    handle_osc_message Mapping.apc_mini
      ⟨"/hog/status/led/maingo".toList, [.other]⟩ =
      some ⟨[], [.unexpectedType "maingo".toList]⟩ := by
  decide

/-- C4, counterexample: the claim says the grid button at x=2, y=3 (note 26)
has vel_off = 5, but the code computes vel_off = 3 there (the vel_off closure
falls through both interior rules for x=2, y=3). -/
theorem C4_counterexample :
    Mapping.apc_mini.button_from_note 26 = some ⟨"move".toList, 26, 127, 3⟩ ∧
    (3 : Nat) ≠ 5 := by
  decide

/-- C4, amended: in the registry built by `Mapping.apc_mini`, the grid button
at position x=2, y=3 (note 26) has vel_off = 3, and the grid button at
position x=0, y=0 (note 0) has vel_off = 3. -/
theorem C4_amended_vel_off_values :
    (Mapping.apc_mini.button_from_note 26).map ButtonMapping.vel_off = some 3 ∧
    (Mapping.apc_mini.button_from_note 0).map ButtonMapping.vel_off = some 3 := by
  decide

/-- C2, counterexample: the claim "emits a lamp command at the button's
vel_off if and only if the float is exactly 0" is false — the message value
1/2 is not 0, yet the handler emits the vel_off lamp command for "maingo"
(whose vel_off is 3), because the code matches on the `as u8` cast of the
float. -/
theorem C2_counterexample :
    mkRat 1 2 ≠ 0 ∧
    (Mapping.apc_mini.button_from_name "maingo".toList).map ButtonMapping.vel_off
      = some 3 ∧
    handle_osc_message Mapping.apc_mini
      ⟨"/hog/status/led/maingo".toList, [.float (mkRat 1 2)]⟩ =
      some ⟨[.noteOn 0 3], []⟩ := by
  decide

/-- C2, amended: for every inbound message whose address is the LED prefix
followed by a suffix whose normalized name matches a button, and whose first
argument is a float v, the router emits a lamp command at the button's
vel_off iff the Rust `as u8` cast of v (truncation toward zero, saturating)
equals 0, at vel_on iff that cast equals 1, and for any other cast value
emits nothing and only reports it as unexpected. -/
theorem C2_amended_led_float (s : Str) (btn : ButtonMapping) (v : ℚ)
    (rest : List OscType)
    (h : Mapping.apc_mini.button_from_name (led_name s) = some btn) :
    handle_osc_message Mapping.apc_mini ⟨led_pre ++ s, .float v :: rest⟩ =
      some (if f32_to_u8 v = 0 then ⟨[.noteOn btn.note btn.vel_off], []⟩
            else if f32_to_u8 v = 1 then ⟨[.noteOn btn.note btn.vel_on], []⟩
            else ⟨[], [.unexpectedValue (led_name s) (f32_to_u8 v)]⟩) := by
  by_cases h0 : f32_to_u8 v = 0
  · simp [handle_osc_message, strip_pre_append, handle_led, h, h0]
  · by_cases h1 : f32_to_u8 v = 1
    · simp [handle_osc_message, strip_pre_append, handle_led, h, h0, h1]
    · simp [handle_osc_message, strip_pre_append, handle_led, h, h0, h1]

/-- Witness for C2_amended_led_float at s = "maingo", v = 0. -/
theorem C2_witness :
    Mapping.apc_mini.button_from_name (led_name "maingo".toList) =
      some ⟨"maingo".toList, 0, 127, 3⟩ ∧
    handle_osc_message Mapping.apc_mini
      ⟨led_pre ++ "maingo".toList, [.float 0]⟩ =
      some (if f32_to_u8 0 = 0 then ⟨[.noteOn 0 3], []⟩
            else if f32_to_u8 0 = 1 then ⟨[.noteOn 0 127], []⟩
            else ⟨[], [.unexpectedValue (led_name "maingo".toList) (f32_to_u8 0)]⟩) :=
  ⟨by decide,
   C2_amended_led_float "maingo".toList ⟨"maingo".toList, 0, 127, 3⟩ 0 [] (by decide)⟩

/-- C5: for every controller-change with an id mapped in the registry and
value v in 0..=127, the emitted message carries the single float v*2 + v/64
(integer division; the u8 arithmetic cannot wrap for v ≤ 127); in particular
v = 127 yields 255.0 and v = 0 yields 0.0 on fader/1 (id 48). -/
theorem C5_controller_remap :
    (∀ (cid v : Nat) (c : ControlMapping), v ≤ 127 →
      Mapping.apc_mini.controller_from_id cid = some c →
      handle_midi_message Mapping.apc_mini (.controller cid v) =
        [⟨hardware_pre ++ c.name, [.float ((v * 2 + v / 64 : Nat) : ℚ)]⟩]) ∧
    handle_midi_message Mapping.apc_mini (.controller 48 127) =
      [⟨hardware_pre ++ "fader/1".toList, [.float 255]⟩] ∧
    handle_midi_message Mapping.apc_mini (.controller 48 0) =
      [⟨hardware_pre ++ "fader/1".toList, [.float 0]⟩] := by
  refine ⟨?_, by decide, by decide⟩
  intro cid v c hv hc
  have harith : ((v * 2) % 256 + v / 64) % 256 = v * 2 + v / 64 := by omega
  simp [handle_midi_message, hc, harith]

/-- Witness for C5_controller_remap at id 48, v = 127. -/
theorem C5_witness :
    handle_midi_message Mapping.apc_mini (.controller 48 127) =
      [⟨hardware_pre ++ "fader/1".toList, [.float ((127 * 2 + 127 / 64 : Nat) : ℚ)]⟩] :=
  C5_controller_remap.1 48 127 ⟨"fader/1".toList, 48⟩ (by decide) (by decide)

/-- C6: the name looked up for an LED-status address is the suffix after
"/hog/status/led/" with every "effects" rewritten to "effect" and then a
trailing "/100" stripped; in particular "maingo/100" is looked up as "maingo"
and "colintensityeffects" as "colintensityeffect". The universally
quantified part shows every message at the LED prefix is routed through
exactly this normalization. -/
theorem C6_led_name_normalization :
    led_name "maingo/100".toList = "maingo".toList ∧
    led_name "colintensityeffects".toList = "colintensityeffect".toList ∧
    ∀ (s : Str) (args : List OscType),
      handle_osc_message Mapping.apc_mini ⟨led_pre ++ s, args⟩ =
        handle_led Mapping.apc_mini (led_name s) args := by
  refine ⟨by decide, by decide, fun s args => ?_⟩
  simp [handle_osc_message, strip_pre_append]

/-- C7: whenever button_from_name finds a button, looking that button's note
up with button_from_note returns the same button (the two indices of the
apc_mini registry are consistent, since notes are pairwise distinct). -/
theorem C7_name_note_roundtrip (name : Str) (b : ButtonMapping)
    (h : Mapping.apc_mini.button_from_name name = some b) :
    Mapping.apc_mini.button_from_note b.note = some b := by
  have hfind : Mapping.apc_mini.button_mappings.find?
      (fun x => x.name == name) = some b := h
  have hmem : b ∈ Mapping.apc_mini.button_mappings :=
    List.mem_of_find?_eq_some hfind
  exact find_note_eq_of_mem _ b apc_mini_notes_distinct hmem

/-- Witness for C7_name_note_roundtrip at name = "maingo". -/
theorem C7_witness :
    Mapping.apc_mini.button_from_name "maingo".toList =
      some ⟨"maingo".toList, 0, 127, 3⟩ ∧
    Mapping.apc_mini.button_from_note
      (ButtonMapping.note ⟨"maingo".toList, 0, 127, 3⟩) =
      some ⟨"maingo".toList, 0, 127, 3⟩ :=
  ⟨by decide,
   C7_name_note_roundtrip "maingo".toList ⟨"maingo".toList, 0, 127, 3⟩ (by decide)⟩

/-- C8: every non-empty grid cell at column x, bottom-left row y (both < 8)
yields a registry entry with note 8*y + x, the name taken from source matrix
row 7 - y, and vel_on = 127; an empty cell yields no entry with that note at
all. -/
theorem C8_grid_construction : ∀ x < 8, ∀ y < 8,
    (matrix_name x y ≠ [] →
      ∃ b ∈ Mapping.apc_mini.button_mappings,
        b.name = matrix_name x y ∧ b.note = 8 * y + x ∧ b.vel_on = 127) ∧
    (matrix_name x y = [] →
      ∀ b ∈ Mapping.apc_mini.button_mappings, b.note ≠ 8 * y + x) := by
  have hd : ∀ x ∈ List.range 8, ∀ y ∈ List.range 8,
      (matrix_name x y ≠ [] →
        ∃ b ∈ Mapping.apc_mini.button_mappings,
          b.name = matrix_name x y ∧ b.note = 8 * y + x ∧ b.vel_on = 127) ∧
      (matrix_name x y = [] →
        ∀ b ∈ Mapping.apc_mini.button_mappings, b.note ≠ 8 * y + x) := by
    decide
  intro x hx y hy
  exact hd x (List.mem_range.mpr hx) y (List.mem_range.mpr hy)

/-- Witness for C8_grid_construction at x = 2, y = 3 (the "move" pad). -/
theorem C8_witness :
    2 < 8 ∧ 3 < 8 ∧
    ((matrix_name 2 3 ≠ [] →
       ∃ b ∈ Mapping.apc_mini.button_mappings,
         b.name = matrix_name 2 3 ∧ b.note = 8 * 3 + 2 ∧ b.vel_on = 127) ∧
     (matrix_name 2 3 = [] →
       ∀ b ∈ Mapping.apc_mini.button_mappings, b.note ≠ 8 * 3 + 2)) :=
  ⟨by decide, by decide, C8_grid_construction 2 (by decide) 3 (by decide)⟩

/-- C9: a note-on whose note is mapped emits "/hog/hardware/<name>" with the
single float 1.0, a mapped note-off the same address with 0.0; unmapped
note-on/note-off events emit nothing (and the handler has no report path at
all); in particular note-on for note 16 emits "/hog/hardware/mainback" with
1.0. -/
theorem C9_note_translation :
    (∀ (key vel : Nat) (btn : ButtonMapping),
      Mapping.apc_mini.button_from_note key = some btn →
        handle_midi_message Mapping.apc_mini (.noteOn key vel) =
          [⟨hardware_pre ++ btn.name, [.float 1]⟩] ∧
        handle_midi_message Mapping.apc_mini (.noteOff key vel) =
          [⟨hardware_pre ++ btn.name, [.float 0]⟩]) ∧
    (∀ (key vel : Nat),
      Mapping.apc_mini.button_from_note key = none →
        handle_midi_message Mapping.apc_mini (.noteOn key vel) = [] ∧
        handle_midi_message Mapping.apc_mini (.noteOff key vel) = []) ∧
    (∀ vel : Nat,
      handle_midi_message Mapping.apc_mini (.noteOn 16 vel) =
        [⟨"/hog/hardware/mainback".toList, [.float 1]⟩]) := by
  refine ⟨?_, ?_, ?_⟩
  · intro key vel btn h
    constructor <;> simp [handle_midi_message, h]
  · intro key vel h
    constructor <;> simp [handle_midi_message, h]
  · intro vel
    have h : Mapping.apc_mini.button_from_note 16 =
        some ⟨"mainback".toList, 16, 127, 3⟩ := by decide
    simp only [handle_midi_message, h]
    decide

/-- Witness for C9_note_translation at note 16 ("mainback"). -/
theorem C9_witness :
    Mapping.apc_mini.button_from_note 16 = some ⟨"mainback".toList, 16, 127, 3⟩ ∧
    (handle_midi_message Mapping.apc_mini (.noteOn 16 1) =
       [⟨hardware_pre ++ "mainback".toList, [.float 1]⟩] ∧
     handle_midi_message Mapping.apc_mini (.noteOff 16 1) =
       [⟨hardware_pre ++ "mainback".toList, [.float 0]⟩]) :=
  ⟨by decide,
   C9_note_translation.1 16 1 ⟨"mainback".toList, 16, 127, 3⟩ (by decide)⟩

/-- C10: button_from_name scans the backing vector in construction order, so
the duplicated name "enter" resolves to the pad with note 6 (pushed first),
and no name lookup can ever return the pad with note 7. -/
theorem C10_find_first_enter :
    Mapping.apc_mini.button_from_name "enter".toList =
      some ⟨"enter".toList, 6, 127, 5⟩ ∧
    ∀ (name : Str) (b : ButtonMapping),
      Mapping.apc_mini.button_from_name name = some b → b.note ≠ 7 := by
  refine ⟨by decide, ?_⟩
  intro name b h hb7
  have hfind : Mapping.apc_mini.button_mappings.find?
      (fun x => x.name == name) = some b := h
  have hmem : b ∈ Mapping.apc_mini.button_mappings :=
    List.mem_of_find?_eq_some hfind
  have hpred := List.find?_some hfind
  have hname : b.name = name := by simpa using hpred
  have honly : ∀ x ∈ Mapping.apc_mini.button_mappings, x.note = 7 →
      x = ⟨"enter".toList, 7, 127, 5⟩ := by decide
  have hb : b = ⟨"enter".toList, 7, 127, 5⟩ := honly b hmem hb7
  have hn : name = "enter".toList := by rw [← hname, hb]
  rw [hn] at h
  have h6 : Mapping.apc_mini.button_from_name "enter".toList =
      some ⟨"enter".toList, 6, 127, 5⟩ := by decide
  rw [h6] at h
  have h67 : (⟨"enter".toList, 6, 127, 5⟩ : ButtonMapping) = b := by
    injection h
  rw [← h67] at hb
  exact absurd hb (by decide)

/-- Witness for the quantified part of C10_find_first_enter at "maingo". -/
theorem C10_witness :
    Mapping.apc_mini.button_from_name "maingo".toList =
      some ⟨"maingo".toList, 0, 127, 3⟩ ∧
    ButtonMapping.note ⟨"maingo".toList, 0, 127, 3⟩ ≠ 7 :=
  ⟨by decide,
   C10_find_first_enter.2 "maingo".toList ⟨"maingo".toList, 0, 127, 3⟩ (by decide)⟩

end Hog4Midictrl
